import Mathlib

/-!
Verification of the olavm multi-table STARK composition layer
(`circuits/src/all_stark.rs`, `circuits/src/cpu/assert.rs`) against its
specification.  The table registry, the cross-table-lookup declarations and
the CPU assert constraint are embedded below; per-table column selector
expressions live in modules outside this slice and are modelled as named
constants per the spec.
-/

namespace Olavm

/-- The closed table enumeration `pub enum Table` from `all_stark.rs`,
with the discriminant values assigned in the source. -/
inductive Table where
| Cpu
| Memory
| Bitwise
| Cmp
| RangeCheck
| BitwiseFixed
| RangecheckFixed
| Program
deriving DecidableEq, Repr

/-- The integer discriminant of each `Table` variant, as written in the
source (`Cpu = 0`, ..., `Program = 7`); the Rust code casts the enum to
`usize` to index per-table arrays. -/
def Table.index : Table → Nat
| .Cpu => 0
| .Memory => 1
| .Bitwise => 2
| .Cmp => 3
| .RangeCheck => 4
| .BitwiseFixed => 5
| .RangecheckFixed => 6
| .Program => 7

/-- `pub(crate) const NUM_TABLES: usize = 2;` from `all_stark.rs`. -/
def NUM_TABLES : Nat := 2

/-- Modelled from the spec: a column selector is "an expression (raw index,
affine combination, or constant) evaluated per row to produce one field
value".  The concrete selector expressions (`cpu_stark::ctl_data_*`,
`memory::ctl_data`, `bitwise_stark::ctl_data_with_cpu`, ...) live in
per-table modules that are not part of this slice, so each selector is
modelled as a distinct named constant; two call sites of the same Rust
constructor yield the same constant. -/
inductive Column where
| cpu_clk
| cpu_mstore_addr
| cpu_mstore_value
| cpu_mload_addr
| cpu_mload_value
| cpu_call_ret_pc_addr
| cpu_call_ret_pc_value
| cpu_call_ret_fp_addr
| cpu_call_ret_fp_value
| cpu_sel_mstore
| cpu_sel_mload
| cpu_sel_call_ret
| mem_clk
| mem_addr
| mem_value
| mem_lookup_filter
| mem_rc_diff_cond
| mem_rc_diff_addr
| mem_rc_diff_clk
| mem_rc_diff_cond_sel
| mem_rc_diff_addr_sel
| mem_rc_diff_clk_sel
| rc_val
| rc_sel
| rc_cpu_val
| rc_cpu_sel
| cpu_op0
| cpu_op1
| cpu_dst
| cpu_sel_and
| cpu_sel_or
| cpu_sel_xor
| bitwise_op0
| bitwise_op1
| bitwise_res
| bitwise_sel
| cpu_cmp_op0
| cpu_cmp_op1
| cpu_cmp_flag
| cpu_sel_cmp
| cmp_op0
| cmp_op1
| cmp_flag
| cmp_sel
| cpu_sel_rc
| cpu_rc_val
| cpu_pc
| cpu_ins
| cpu_imm
| cpu_compress
| cpu_sel_program
| prog_pc
| prog_ins
| prog_imm
| prog_compress
| prog_sel
deriving DecidableEq, Repr

/-- `TableWithColumns` from `cross_table_lookup.rs` (declared outside this
slice; its shape — a table id, an ordered list of column selectors and an
optional filter column — is given by the spec's data model and by every use
site in `all_stark.rs`). -/
structure TableWithColumns where
  table : Table
  columns : List Column
  filter_column : Option Column
deriving DecidableEq, Repr

/-- `TableWithColumns::new(table, columns, filter_column)`. -/
def TableWithColumns.new (table : Table) (columns : List Column)
    (filter_column : Option Column) : TableWithColumns :=
  ⟨table, columns, filter_column⟩

/-- `CrossTableLookup` from `cross_table_lookup.rs`: one-or-more looking
tables, exactly one looked table (held in a single field, so uniqueness of
the looked side is structural), and an optional default row.  Field values
of the default row are abstracted as naturals; every constructor in
`all_stark.rs` passes `None`. -/
structure CrossTableLookup where
  looking_tables : List TableWithColumns
  looked_table : TableWithColumns
  default_row : Option (List Nat)
deriving DecidableEq, Repr

/-- `CrossTableLookup::new(looking_tables, looked_table, default)`. -/
def CrossTableLookup.new (looking_tables : List TableWithColumns)
    (looked_table : TableWithColumns) (default_row : Option (List Nat)) :
    CrossTableLookup :=
  ⟨looking_tables, looked_table, default_row⟩

/-- The arity of a lookup: the length of the looked side's key tuple. -/
def CrossTableLookup.arity (c : CrossTableLookup) : Nat :=
  c.looked_table.columns.length

/-- Modelled from the spec: construction-time well-formedness of a
`CrossTableLookup` — "arities of looking and looked projections are equal;
exactly one looked side; at least one looking side".  The looked side is
unique by the structure itself; the remaining two conditions are checked
here. -/
def CrossTableLookup.well_formed (c : CrossTableLookup) : Bool :=
  !c.looking_tables.isEmpty &&
    c.looking_tables.all (fun l => l.columns.length == c.arity)

/-- All table identifiers referenced by a lookup, looking sides first. -/
def CrossTableLookup.referenced_tables (c : CrossTableLookup) : List Table :=
  c.looking_tables.map (fun l => l.table) ++ [c.looked_table.table]

namespace cpu_stark

/-- Modelled from the spec: CPU-side key tuple for a memory store — the CPU
row is matched to the Memory table on the "same address/value/ordering". -/
def ctl_data_cpu_mem_mstore : List Column :=
  [.cpu_mstore_addr, .cpu_mstore_value, .cpu_clk]

/-- Modelled from the spec: CPU-side filter selecting memory-store rows. -/
def ctl_filter_cpu_mem_mstore : Column := .cpu_sel_mstore

/-- Modelled from the spec: CPU-side key tuple for a memory load. -/
def ctl_data_cpu_mem_mload : List Column :=
  [.cpu_mload_addr, .cpu_mload_value, .cpu_clk]

/-- Modelled from the spec: CPU-side filter selecting memory-load rows. -/
def ctl_filter_cpu_mem_mload : Column := .cpu_sel_mload

/-- Modelled from the spec: CPU-side key tuple for the call/return
program-counter write. -/
def ctl_data_cpu_mem_call_ret_pc : List Column :=
  [.cpu_call_ret_pc_addr, .cpu_call_ret_pc_value, .cpu_clk]

/-- Modelled from the spec: CPU-side key tuple for the call/return
frame-pointer write. -/
def ctl_data_cpu_mem_call_ret_fp : List Column :=
  [.cpu_call_ret_fp_addr, .cpu_call_ret_fp_value, .cpu_clk]

/-- Modelled from the spec: CPU-side filter selecting call/return rows;
`all_stark.rs` uses this single constructor for both the program-counter
and the frame-pointer looking sides. -/
def ctl_filter_cpu_mem_call_ret : Column := .cpu_sel_call_ret

/-- Modelled from the spec: CPU-side key tuple shared by the three bitwise
looking sides; the source's own comment block gives the tuple
`(op0, op1, dst)`. -/
def ctl_data_with_bitwise : List Column := [.cpu_op0, .cpu_op1, .cpu_dst]

/-- Modelled from the spec: CPU filter selecting AND rows. -/
def ctl_filter_with_bitwise_and : Column := .cpu_sel_and

/-- Modelled from the spec: CPU filter selecting OR rows. -/
def ctl_filter_with_bitwise_or : Column := .cpu_sel_or

/-- Modelled from the spec: CPU filter selecting XOR rows. -/
def ctl_filter_with_bitwise_xor : Column := .cpu_sel_xor

/-- Modelled from the spec: CPU-side key tuple for comparison operations. -/
def ctl_data_with_cmp : List Column :=
  [.cpu_cmp_op0, .cpu_cmp_op1, .cpu_cmp_flag]

/-- Modelled from the spec: CPU filter selecting comparison rows. -/
def ctl_filter_with_cmp : Column := .cpu_sel_cmp

/-- Modelled from the spec: CPU-side key tuple for range-checked operands. -/
def ctl_data_with_rangecheck : List Column := [.cpu_rc_val]

/-- Modelled from the spec: CPU filter selecting range-check rows. -/
def ctl_filter_with_rangecheck : Column := .cpu_sel_rc

/-- Modelled from the spec: CPU-side key tuple for the program lookup,
"keyed by program counter and instruction encoding"; the source's comment
block lists the columns `PC, INS, IMM, COMPRESS`. -/
def ctl_data_with_program : List Column :=
  [.cpu_pc, .cpu_ins, .cpu_imm, .cpu_compress]

/-- Modelled from the spec: CPU filter for the program lookup. -/
def ctl_filter_with_program : Column := .cpu_sel_program

end cpu_stark

namespace memory

/-- Modelled from the spec: Memory-side key tuple (address, value,
ordering), imported in `all_stark.rs` as `mem_ctl_data`. -/
def ctl_data : List Column := [.mem_addr, .mem_value, .mem_clk]

/-- Modelled from the spec: Memory-side lookup filter, imported as
`mem_ctl_filter`. -/
def ctl_filter : Column := .mem_lookup_filter

/-- Modelled from the spec: memory → range-check key for the condition
difference column. -/
def ctl_data_mem_rc_diff_cond : List Column := [.mem_rc_diff_cond]

/-- Modelled from the spec: filter for the condition-difference looker. -/
def ctl_filter_mem_rc_diff_cond : Column := .mem_rc_diff_cond_sel

/-- Modelled from the spec: memory → range-check key for the address
difference column. -/
def ctl_data_mem_rc_diff_addr : List Column := [.mem_rc_diff_addr]

/-- Modelled from the spec: filter for the address-difference looker. -/
def ctl_filter_mem_rc_diff_addr : Column := .mem_rc_diff_addr_sel

/-- Modelled from the spec: memory → range-check key for the clock
difference column. -/
def ctl_data_mem_rc_diff_clk : List Column := [.mem_rc_diff_clk]

/-- Modelled from the spec: filter for the clock-difference looker. -/
def ctl_filter_mem_rc_diff_clk : Column := .mem_rc_diff_clk_sel

end memory

namespace bitwise_stark

/-- Modelled from the spec: Bitwise-side key tuple; the source's comment
block gives `(op0, op1, res)`. -/
def ctl_data_with_cpu : List Column := [.bitwise_op0, .bitwise_op1, .bitwise_res]

/-- Modelled from the spec: Bitwise-side lookup filter. -/
def ctl_filter_with_cpu : Column := .bitwise_sel

end bitwise_stark

namespace cmp_stark

/-- Modelled from the spec: Cmp-side key tuple for the comparison lookup. -/
def ctl_data_with_cpu : List Column := [.cmp_op0, .cmp_op1, .cmp_flag]

/-- Modelled from the spec: Cmp-side lookup filter. -/
def ctl_filter_with_cpu : Column := .cmp_sel

end cmp_stark

namespace rangecheck_stark

/-- Modelled from the spec: RangeCheck-side key looked by the memory
difference lookers, imported in `all_stark.rs` as `ctl_data_rc`. -/
def ctl_data_rc : List Column := [.rc_val]

/-- Modelled from the spec: RangeCheck-side filter, imported as
`ctl_filter_rc`. -/
def ctl_filter_rc : Column := .rc_sel

/-- Modelled from the spec: RangeCheck-side key looked by the CPU. -/
def ctl_data_with_cpu : List Column := [.rc_cpu_val]

/-- Modelled from the spec: RangeCheck-side filter for the CPU lookup. -/
def ctl_filter_with_cpu : Column := .rc_cpu_sel

end rangecheck_stark

namespace program_stark

/-- Modelled from the spec: Program-side key tuple `PC, INS, IMM,
COMPRESS` from the source's comment block. -/
def ctl_data_with_cpu : List Column :=
  [.prog_pc, .prog_ins, .prog_imm, .prog_compress]

/-- Modelled from the spec: Program-side lookup filter. -/
def ctl_filter_with_cpu : Column := .prog_sel

end program_stark

/-- `ctl_cpu_memory` from `all_stark.rs`: four looking sides on the CPU
table (memory store, memory load, call/return program-counter write,
call/return frame-pointer write — the last two sharing the call/return
filter constructor), looked side on the Memory table, no default row. -/
def ctl_cpu_memory : CrossTableLookup :=
  let cpu_mem_mstore := TableWithColumns.new Table.Cpu
    cpu_stark.ctl_data_cpu_mem_mstore (some cpu_stark.ctl_filter_cpu_mem_mstore)
  let cpu_mem_mload := TableWithColumns.new Table.Cpu
    cpu_stark.ctl_data_cpu_mem_mload (some cpu_stark.ctl_filter_cpu_mem_mload)
  let cpu_mem_call_ret_pc := TableWithColumns.new Table.Cpu
    cpu_stark.ctl_data_cpu_mem_call_ret_pc (some cpu_stark.ctl_filter_cpu_mem_call_ret)
  let cpu_mem_call_ret_fp := TableWithColumns.new Table.Cpu
    cpu_stark.ctl_data_cpu_mem_call_ret_fp (some cpu_stark.ctl_filter_cpu_mem_call_ret)
  let all_cpu_lookers :=
    [cpu_mem_mstore, cpu_mem_mload, cpu_mem_call_ret_pc, cpu_mem_call_ret_fp]
  let memory_looked :=
    TableWithColumns.new Table.Memory memory.ctl_data (some memory.ctl_filter)
  CrossTableLookup.new all_cpu_lookers memory_looked none

/-- `ctl_memory_rc` from `all_stark.rs`: three memory difference lookers,
RangeCheck looked.  Declared in the source but not registered. -/
def ctl_memory_rc : CrossTableLookup :=
  let mem_rc_diff_cond := TableWithColumns.new Table.Memory
    memory.ctl_data_mem_rc_diff_cond (some memory.ctl_filter_mem_rc_diff_cond)
  let mem_rc_diff_addr := TableWithColumns.new Table.Memory
    memory.ctl_data_mem_rc_diff_addr (some memory.ctl_filter_mem_rc_diff_addr)
  let mem_rc_diff_clk := TableWithColumns.new Table.Memory
    memory.ctl_data_mem_rc_diff_clk (some memory.ctl_filter_mem_rc_diff_clk)
  let all_mem_rc_lookers := [mem_rc_diff_cond, mem_rc_diff_addr, mem_rc_diff_clk]
  let rc_looked := TableWithColumns.new Table.RangeCheck
    rangecheck_stark.ctl_data_rc (some rangecheck_stark.ctl_filter_rc)
  CrossTableLookup.new all_mem_rc_lookers rc_looked none

/-- `ctl_bitwise_cpu` from `all_stark.rs`: three CPU looking sides with the
same key tuple, filtered by the AND, OR and XOR selectors; Bitwise looked.
Declared in the source but not registered. -/
def ctl_bitwise_cpu : CrossTableLookup :=
  CrossTableLookup.new
    [TableWithColumns.new Table.Cpu cpu_stark.ctl_data_with_bitwise
      (some cpu_stark.ctl_filter_with_bitwise_and),
     TableWithColumns.new Table.Cpu cpu_stark.ctl_data_with_bitwise
      (some cpu_stark.ctl_filter_with_bitwise_or),
     TableWithColumns.new Table.Cpu cpu_stark.ctl_data_with_bitwise
      (some cpu_stark.ctl_filter_with_bitwise_xor)]
    (TableWithColumns.new Table.Bitwise bitwise_stark.ctl_data_with_cpu
      (some bitwise_stark.ctl_filter_with_cpu))
    none

/-- `ctl_cmp_cpu` from `all_stark.rs`: one CPU looking side, Cmp looked.
Declared in the source but not registered. -/
def ctl_cmp_cpu : CrossTableLookup :=
  CrossTableLookup.new
    [TableWithColumns.new Table.Cpu cpu_stark.ctl_data_with_cmp
      (some cpu_stark.ctl_filter_with_cmp)]
    (TableWithColumns.new Table.Cmp cmp_stark.ctl_data_with_cpu
      (some cmp_stark.ctl_filter_with_cpu))
    none

/-- `ctl_rangecheck_cpu` from `all_stark.rs`: one CPU looking side,
RangeCheck looked.  Declared in the source but not registered. -/
def ctl_rangecheck_cpu : CrossTableLookup :=
  CrossTableLookup.new
    [TableWithColumns.new Table.Cpu cpu_stark.ctl_data_with_rangecheck
      (some cpu_stark.ctl_filter_with_rangecheck)]
    (TableWithColumns.new Table.RangeCheck rangecheck_stark.ctl_data_with_cpu
      (some rangecheck_stark.ctl_filter_with_cpu))
    none

/-- `ctl_correct_program_cpu` from `all_stark.rs`: one CPU looking side,
Program looked.  Declared in the source but not registered. -/
def ctl_correct_program_cpu : CrossTableLookup :=
  CrossTableLookup.new
    [TableWithColumns.new Table.Cpu cpu_stark.ctl_data_with_program
      (some cpu_stark.ctl_filter_with_program)]
    (TableWithColumns.new Table.Program program_stark.ctl_data_with_cpu
      (some program_stark.ctl_filter_with_cpu))
    none

/-- `all_cross_table_lookups` from `all_stark.rs`: the list is
`vec![ctl_cpu_memory()]` — only the CPU↔Memory lookup is registered. -/
def all_cross_table_lookups : List CrossTableLookup :=
  [ctl_cpu_memory]

/-- Modelled from the spec: the shared security configuration — "security
parameter, commitment rate, number of query points, and the
permutation-batching strategy" (`StarkConfig` is declared outside this
slice). -/
structure StarkConfig where
  security_bits : Nat
  num_challenges : Nat
  rate_bits : Nat
  num_query_rounds : Nat
deriving DecidableEq, Repr

/-- Modelled from the spec: the per-table permutation-batch hints of the
CPU table ("permutation-batch hints consumed by the registry"); the
concrete stark lives outside this slice, so only its metadata interface is
modelled. -/
structure CpuStark where
  num_permutation_batches : StarkConfig → Nat
  permutation_batch_size : Nat

/-- Modelled from the spec: metadata interface of the Memory table. -/
structure MemoryStark where
  num_permutation_batches : StarkConfig → Nat
  permutation_batch_size : Nat

/-- Modelled from the spec: metadata interface of the Bitwise table. -/
structure BitwiseStark where
  num_permutation_batches : StarkConfig → Nat
  permutation_batch_size : Nat

/-- Modelled from the spec: metadata interface of the Cmp table. -/
structure CmpStark where
  num_permutation_batches : StarkConfig → Nat
  permutation_batch_size : Nat

/-- Modelled from the spec: metadata interface of the RangeCheck table. -/
structure RangeCheckStark where
  num_permutation_batches : StarkConfig → Nat
  permutation_batch_size : Nat

/-- Modelled from the spec: placeholder default for the CPU stark; the real
`CpuStark::default()` lives outside this slice and none of the claims
depend on its metadata values. -/
def CpuStark.default : CpuStark := ⟨fun _ => 1, 1⟩

/-- Modelled from the spec: placeholder default for the Memory stark. -/
def MemoryStark.default : MemoryStark := ⟨fun _ => 1, 1⟩

/-- Modelled from the spec: placeholder default for the Bitwise stark. -/
def BitwiseStark.default : BitwiseStark := ⟨fun _ => 1, 1⟩

/-- Modelled from the spec: placeholder default for the Cmp stark. -/
def CmpStark.default : CmpStark := ⟨fun _ => 1, 1⟩

/-- Modelled from the spec: placeholder default for the RangeCheck stark. -/
def RangeCheckStark.default : RangeCheckStark := ⟨fun _ => 1, 1⟩

/-- `pub struct AllStark` from `all_stark.rs`: the registry owns exactly
five stark instances — `cpu_stark`, `memory_stark`, `bitwise_stark`,
`cmp_stark`, `rangecheck_stark` — plus the cross-table-lookup list.  There
is no field for the BitwiseFixed, RangecheckFixed or Program tables. -/
structure AllStark where
  cpu_stark : CpuStark
  memory_stark : MemoryStark
  bitwise_stark : BitwiseStark
  cmp_stark : CmpStark
  rangecheck_stark : RangeCheckStark
  cross_table_lookups : List CrossTableLookup

/-- `impl Default for AllStark`: default stark instances and
`all_cross_table_lookups()`. -/
def AllStark.default : AllStark :=
  ⟨CpuStark.default, MemoryStark.default, BitwiseStark.default,
   CmpStark.default, RangeCheckStark.default, all_cross_table_lookups⟩

/-- The tables for which the `AllStark` struct declares a stark field, one
entry per field of the struct, in field order (`cpu_stark` ↦ `Cpu`, ...,
`rangecheck_stark` ↦ `RangeCheck`). -/
def registryTables : List Table :=
  [Table.Cpu, Table.Memory, Table.Bitwise, Table.Cmp, Table.RangeCheck]

/-- `AllStark::nums_permutation_zs` from `all_stark.rs`: a `NUM_TABLES`
array holding the CPU entry then the Memory entry; the builtin entries are
commented out in the source. -/
def AllStark.nums_permutation_zs (s : AllStark) (config : StarkConfig) :
    List Nat :=
  [s.cpu_stark.num_permutation_batches config,
   s.memory_stark.num_permutation_batches config]

/-- `AllStark::permutation_batch_sizes` from `all_stark.rs`: a `NUM_TABLES`
array holding the CPU entry then the Memory entry. -/
def AllStark.permutation_batch_sizes (s : AllStark) : List Nat :=
  [s.cpu_stark.permutation_batch_size,
   s.memory_stark.permutation_batch_size]

/-- A concrete configuration used only to instantiate witnesses. -/
def sampleConfig : StarkConfig := ⟨100, 2, 3, 84⟩

/-- The constraint consumer of `constraint_consumer.rs` (outside this
slice), modelled as the list of constraint values emitted so far; its
`constraint` method appends one value. -/
abbrev ConstraintConsumer (F : Type) : Type := List F

/-- `ConstraintConsumer::constraint`: record one constraint value that must
vanish on a valid trace. -/
def ConstraintConsumer.constraint {F : Type} (yc : ConstraintConsumer F)
    (v : F) : ConstraintConsumer F :=
  yc ++ [v]

namespace cpu_assert

/-- `eval_packed_generic` from `cpu/assert.rs`: emits the single constraint
`lv[COL_S_ASSERT] * (lv[COL_OP0] - lv[COL_OP1])`.  The row is a function
from column indices to field elements; the concrete index constants
`COL_S_ASSERT`, `COL_OP0`, `COL_OP1` and the row width `NUM_CPU_COLS` live
in the columns module outside this slice, so the indices are parameters.
The next-row argument `_nv` is unused, exactly as in the source. -/
def eval_packed_generic (F : Type) [Field F]
    (COL_S_ASSERT COL_OP0 COL_OP1 : Nat) (lv _nv : Nat → F)
    (yield_constr : ConstraintConsumer F) : ConstraintConsumer F :=
  yield_constr.constraint (lv COL_S_ASSERT * (lv COL_OP0 - lv COL_OP1))

end cpu_assert

/-- A concrete rational-valued row used only to instantiate witnesses:
column 0 holds 1, column 1 holds 3, column 2 holds 3. -/
def sampleRow : Nat → ℚ := fun n => List.getD [1, 3, 3] n 0

end Olavm

namespace Olavm

/-- C1 counterexample: the claim fails on the code — the default registry's
cross-table-lookup list contains no lookup whose looked side is the Bitwise
table (nor Cmp, RangeCheck or Program); `all_cross_table_lookups` registers
only the CPU↔Memory lookup. -/
theorem c1_registry_counterexample :
    ¬ ∃ c ∈ AllStark.default.cross_table_lookups,
      c.looked_table.table = Table.Bitwise := by
  decide

/-- C1 (amended): the default registry's list is exactly
`[ctl_cpu_memory]`, a CPU↔Memory lookup; constructors for the CPU↔Bitwise,
CPU↔Cmp, CPU↔RangeCheck and CPU↔Program roles exist in the module but none
of them is included in the list. -/
theorem c1_registry_contents :
    AllStark.default.cross_table_lookups = [ctl_cpu_memory] ∧
    ctl_cpu_memory.looked_table.table = Table.Memory ∧
    ctl_cpu_memory.looking_tables.map TableWithColumns.table =
      [Table.Cpu, Table.Cpu, Table.Cpu, Table.Cpu] ∧
    ctl_bitwise_cpu.looked_table.table = Table.Bitwise ∧
    ctl_cmp_cpu.looked_table.table = Table.Cmp ∧
    ctl_rangecheck_cpu.looked_table.table = Table.RangeCheck ∧
    ctl_correct_program_cpu.looked_table.table = Table.Program ∧
    ctl_bitwise_cpu ∉ AllStark.default.cross_table_lookups ∧
    ctl_cmp_cpu ∉ AllStark.default.cross_table_lookups ∧
    ctl_rangecheck_cpu ∉ AllStark.default.cross_table_lookups ∧
    ctl_correct_program_cpu ∉ AllStark.default.cross_table_lookups := by
  decide

/-- C3: every cross-table lookup held by the default registry is
well-formed: at least one looking side, and every looking side's key tuple
has the same arity as the looked side's; the looked side is unique by the
very shape of `CrossTableLookup` (a single `looked_table` field). -/
theorem c3_ctl_well_formed :
    all_cross_table_lookups.all CrossTableLookup.well_formed = true := by
  decide

/-- C4: for every registry instance and every security configuration, the
metadata arrays have length `NUM_TABLES`, entry 0 is the CPU table's
metadata and entry 1 the Memory table's (matching the `Table` enumeration
order), every table index below `NUM_TABLES` has an entry, and every table
referenced by a registered lookup has an entry. -/
theorem c4_metadata_alignment (s : AllStark) (config : StarkConfig) :
    (s.nums_permutation_zs config).length = NUM_TABLES ∧
    s.permutation_batch_sizes.length = NUM_TABLES ∧
    (s.nums_permutation_zs config)[Table.Cpu.index]? =
      some (s.cpu_stark.num_permutation_batches config) ∧
    (s.nums_permutation_zs config)[Table.Memory.index]? =
      some (s.memory_stark.num_permutation_batches config) ∧
    s.permutation_batch_sizes[Table.Cpu.index]? =
      some s.cpu_stark.permutation_batch_size ∧
    s.permutation_batch_sizes[Table.Memory.index]? =
      some s.memory_stark.permutation_batch_size ∧
    (∀ t : Table, t.index < NUM_TABLES →
      ((s.nums_permutation_zs config)[t.index]?).isSome = true ∧
      (s.permutation_batch_sizes[t.index]?).isSome = true) ∧
    (∀ c ∈ all_cross_table_lookups, ∀ t ∈ c.referenced_tables,
      ((s.nums_permutation_zs config)[t.index]?).isSome = true) := by
  refine ⟨rfl, rfl, rfl, rfl, rfl, rfl, ?_, ?_⟩
  · intro t ht
    cases t <;> first
      | exact ⟨rfl, rfl⟩
      | (exfalso; revert ht; decide)
  · intro c hc t ht
    have hcm : ∀ c ∈ all_cross_table_lookups, ∀ t ∈ c.referenced_tables,
        t = Table.Cpu ∨ t = Table.Memory := by decide
    rcases hcm c hc t ht with h | h <;> subst h <;> exact rfl

/-- C4 witness: the alignment facts instantiated at the default registry
and a concrete configuration. -/
theorem c4_metadata_alignment_witness :
    (AllStark.default.nums_permutation_zs sampleConfig).length = NUM_TABLES ∧
    AllStark.default.permutation_batch_sizes.length = NUM_TABLES ∧
    (AllStark.default.nums_permutation_zs sampleConfig)[Table.Cpu.index]? =
      some (AllStark.default.cpu_stark.num_permutation_batches sampleConfig) ∧
    (AllStark.default.nums_permutation_zs sampleConfig)[Table.Memory.index]? =
      some (AllStark.default.memory_stark.num_permutation_batches sampleConfig) ∧
    AllStark.default.permutation_batch_sizes[Table.Cpu.index]? =
      some AllStark.default.cpu_stark.permutation_batch_size ∧
    AllStark.default.permutation_batch_sizes[Table.Memory.index]? =
      some AllStark.default.memory_stark.permutation_batch_size ∧
    (∀ t : Table, t.index < NUM_TABLES →
      ((AllStark.default.nums_permutation_zs sampleConfig)[t.index]?).isSome = true ∧
      (AllStark.default.permutation_batch_sizes[t.index]?).isSome = true) ∧
    (∀ c ∈ all_cross_table_lookups, ∀ t ∈ c.referenced_tables,
      ((AllStark.default.nums_permutation_zs sampleConfig)[t.index]?).isSome = true) :=
  c4_metadata_alignment AllStark.default sampleConfig

/-- C5: every lookup in the default registry references only active
tables — the enumeration index of every table on a looking or looked side
is below `NUM_TABLES`. -/
theorem c5_ctl_tables_active :
    ∀ c ∈ all_cross_table_lookups, ∀ t ∈ c.referenced_tables,
      t.index < NUM_TABLES := by
  decide

/-- C5 witness: the bound instantiated at the CPU↔Memory lookup's looked
table. -/
theorem c5_ctl_tables_active_witness : Table.Memory.index < NUM_TABLES :=
  c5_ctl_tables_active ctl_cpu_memory (by decide) Table.Memory (by decide)

/-- C6: the CPU↔Memory lookup has exactly the four CPU looking sides
(memory store, memory load, call/return program-counter write, call/return
frame-pointer write), each carrying a filter (the two call/return sides
share the call/return filter constructor), a single looked side on the
Memory table with the memory data and filter, and no default row. -/
theorem c6_ctl_cpu_memory_shape :
    ctl_cpu_memory.looking_tables =
      [TableWithColumns.new Table.Cpu cpu_stark.ctl_data_cpu_mem_mstore
        (some cpu_stark.ctl_filter_cpu_mem_mstore),
       TableWithColumns.new Table.Cpu cpu_stark.ctl_data_cpu_mem_mload
        (some cpu_stark.ctl_filter_cpu_mem_mload),
       TableWithColumns.new Table.Cpu cpu_stark.ctl_data_cpu_mem_call_ret_pc
        (some cpu_stark.ctl_filter_cpu_mem_call_ret),
       TableWithColumns.new Table.Cpu cpu_stark.ctl_data_cpu_mem_call_ret_fp
        (some cpu_stark.ctl_filter_cpu_mem_call_ret)] ∧
    ctl_cpu_memory.looking_tables.length = 4 ∧
    ctl_cpu_memory.looking_tables.map TableWithColumns.table =
      [Table.Cpu, Table.Cpu, Table.Cpu, Table.Cpu] ∧
    (ctl_cpu_memory.looking_tables.map TableWithColumns.filter_column).all
      Option.isSome = true ∧
    ctl_cpu_memory.looked_table =
      TableWithColumns.new Table.Memory memory.ctl_data (some memory.ctl_filter) ∧
    ctl_cpu_memory.default_row = none :=
  ⟨rfl, rfl, rfl, rfl, rfl, rfl⟩

/-- C7: the CPU↔Bitwise lookup has exactly three looking sides, all on the
CPU table, all projecting the same bitwise key tuple, filtered by the AND,
OR and XOR selectors respectively, and a single looked side on the Bitwise
table. -/
theorem c7_ctl_bitwise_cpu_shape :
    ctl_bitwise_cpu.looking_tables.length = 3 ∧
    ctl_bitwise_cpu.looking_tables.map TableWithColumns.table =
      [Table.Cpu, Table.Cpu, Table.Cpu] ∧
    ctl_bitwise_cpu.looking_tables.map TableWithColumns.columns =
      [cpu_stark.ctl_data_with_bitwise, cpu_stark.ctl_data_with_bitwise,
       cpu_stark.ctl_data_with_bitwise] ∧
    ctl_bitwise_cpu.looking_tables.map TableWithColumns.filter_column =
      [some cpu_stark.ctl_filter_with_bitwise_and,
       some cpu_stark.ctl_filter_with_bitwise_or,
       some cpu_stark.ctl_filter_with_bitwise_xor] ∧
    ctl_bitwise_cpu.looked_table =
      TableWithColumns.new Table.Bitwise bitwise_stark.ctl_data_with_cpu
        (some bitwise_stark.ctl_filter_with_cpu) ∧
    ctl_bitwise_cpu.default_row = none :=
  ⟨rfl, rfl, rfl, rfl, rfl, rfl⟩

/-- C8 counterexample: the claim fails on the code — the `AllStark` struct
declares no stark field for the Program table (nor for BitwiseFixed or
RangecheckFixed), so the registry does not own an instance for every
`Table` identifier. -/
theorem c8_registry_counterexample : Table.Program ∉ registryTables := by
  decide

/-- C8 (amended): the registry owns one stark instance for each of the
five tables Cpu, Memory, Bitwise, Cmp and RangeCheck — the fields of
`AllStark` — and none for BitwiseFixed, RangecheckFixed or Program. -/
theorem c8_registry_tables :
    registryTables =
      [Table.Cpu, Table.Memory, Table.Bitwise, Table.Cmp, Table.RangeCheck] ∧
    Table.BitwiseFixed ∉ registryTables ∧
    Table.RangecheckFixed ∉ registryTables ∧
    Table.Program ∉ registryTables := by
  decide

/-- C9: the assert evaluator appends exactly one constraint value,
`lv[COL_S_ASSERT] * (lv[COL_OP0] - lv[COL_OP1])`; over a field this value
vanishes iff the assert selector is zero or the two operand columns are
equal, hence on a row with the selector nonzero the constraint holds
exactly when `op0 = op1`. -/
theorem c9_assert_constraint (F : Type) [Field F]
    (COL_S_ASSERT COL_OP0 COL_OP1 : Nat) (lv nv : Nat → F)
    (yield_constr : ConstraintConsumer F) :
    cpu_assert.eval_packed_generic F COL_S_ASSERT COL_OP0 COL_OP1 lv nv
        yield_constr =
      yield_constr ++ [lv COL_S_ASSERT * (lv COL_OP0 - lv COL_OP1)] ∧
    (cpu_assert.eval_packed_generic F COL_S_ASSERT COL_OP0 COL_OP1 lv nv
        yield_constr).length = yield_constr.length + 1 ∧
    (lv COL_S_ASSERT * (lv COL_OP0 - lv COL_OP1) = 0 ↔
      lv COL_S_ASSERT = 0 ∨ lv COL_OP0 = lv COL_OP1) ∧
    (lv COL_S_ASSERT ≠ 0 →
      (lv COL_S_ASSERT * (lv COL_OP0 - lv COL_OP1) = 0 ↔
        lv COL_OP0 = lv COL_OP1)) := by
  refine ⟨rfl, ?_, ?_, ?_⟩
  · simp [cpu_assert.eval_packed_generic, ConstraintConsumer.constraint]
  · rw [mul_eq_zero, sub_eq_zero]
  · intro hs
    rw [mul_eq_zero, sub_eq_zero]
    exact or_iff_right hs

/-- C9 witness: the assert constraint evaluated on a concrete rational row
with selector 1 and equal operands. -/
theorem c9_assert_constraint_witness :
    cpu_assert.eval_packed_generic ℚ 0 1 2 sampleRow sampleRow [] =
      [] ++ [sampleRow 0 * (sampleRow 1 - sampleRow 2)] ∧
    (cpu_assert.eval_packed_generic ℚ 0 1 2 sampleRow sampleRow
        []).length = List.length ([] : List ℚ) + 1 ∧
    (sampleRow 0 * (sampleRow 1 - sampleRow 2) = 0 ↔
      sampleRow 0 = 0 ∨ sampleRow 1 = sampleRow 2) ∧
    (sampleRow 0 ≠ 0 →
      (sampleRow 0 * (sampleRow 1 - sampleRow 2) = 0 ↔
        sampleRow 1 = sampleRow 2)) :=
  c9_assert_constraint ℚ 0 1 2 sampleRow sampleRow []

/-- C10: the assert evaluator ignores the next row — for any two next-row
vectors it emits identical constraint values, so the constraint is a pure
function of the current row. -/
theorem c10_assert_next_row_independent (F : Type) [Field F]
    (COL_S_ASSERT COL_OP0 COL_OP1 : Nat) (lv nva nvb : Nat → F)
    (yield_constr : ConstraintConsumer F) :
    cpu_assert.eval_packed_generic F COL_S_ASSERT COL_OP0 COL_OP1 lv nva
        yield_constr =
      cpu_assert.eval_packed_generic F COL_S_ASSERT COL_OP0 COL_OP1 lv nvb
        yield_constr :=
  rfl

/-- C10 witness: next-row independence at a concrete rational row and two
distinct next rows. -/
theorem c10_assert_next_row_independent_witness :
    cpu_assert.eval_packed_generic ℚ 0 1 2 sampleRow sampleRow [] =
      cpu_assert.eval_packed_generic ℚ 0 1 2 sampleRow (fun _ => 0) [] :=
  c10_assert_next_row_independent ℚ 0 1 2 sampleRow sampleRow (fun _ => 0) []

end Olavm
